import Mathlib

/-!
Verification of the credit-risk scoring pipeline of the loan-portfolio
application (source: `ml/predict.py`, with the display EMI formula from
`backend/utils/calculations.py`).

The Python code is shallowly embedded:
* machine floats become exact rationals (`ℚ`);
* Python `round(x, n)` (banker's rounding, round-half-to-even) becomes `pyRound`;
* the SQLAlchemy customer/employment store becomes an explicit `Database`
  record, with `filter_by(...).first()` becoming `List.find?`;
* the opaque trained-classifier artifact becomes a function parameter
  `model : List (String × ℚ) → ℚ` (its `predict_proba` positive-class
  probability) together with its declared `feature_names : List String`;
* the external SHAP library call becomes an `Option (List ℚ)` parameter
  (`none` models "SHAP unavailable or raised"), and a possible failure of
  the heuristic fallback block becomes a `Bool` parameter;
* Python exceptions become `Except PredError`; in particular the
  `ZeroDivisionError` that Python raises on `x / 0` is modelled by an
  explicit `PredError.zeroDivision` branch exactly where the source divides.
-/

/-- Row of the `customers` table, restricted to the columns the scoring
pipeline reads.  `date_of_birth` is a day number; `today` is passed in as a
day number as well, so `(today - date_of_birth).days` is their difference. -/
structure Customer where
  customer_id : ℕ
  date_of_birth : ℤ
  gender : String
  state : String

/-- Row of the `employment` table, restricted to the columns the scoring
pipeline reads. -/
structure Employment where
  customer_id : ℕ
  monthly_income : ℚ
  years_of_experience : ℚ
  employment_type : String

/-- The read-only customer/employment store consulted per request. -/
structure Database where
  customers : List Customer
  employments : List Employment

/-- Errors raised by the pipeline.  `zeroDivision` models Python's
`ZeroDivisionError`; the two not-found cases model the two distinct
`ValueError`s raised in `prepare_features_for_prediction`. -/
inductive PredError where
  | notFoundCustomer (customer_id : ℕ)
  | notFoundEmployment (customer_id : ℕ)
  | zeroDivision

/-- Message carried by each error, as produced by `str(e)` in Python. -/
def errMsg : PredError → String
  | .notFoundCustomer cid => "Customer " ++ toString cid ++ " not found"
  | .notFoundEmployment cid => "Employment data for customer " ++ toString cid ++ " not found"
  | .zeroDivision => "division by zero"

/-- Python `round(x, ndigits)` on exact rationals: scale by `10 ^ ndigits`,
round half to even, scale back.  `pyRoundInt` is the integer rounding step. -/
def pyRoundInt (s : ℚ) : ℤ :=
  if s - ⌊s⌋ < 1/2 then ⌊s⌋
  else if 1/2 < s - ⌊s⌋ then ⌊s⌋ + 1
  else if ⌊s⌋ % 2 = 0 then ⌊s⌋ else ⌊s⌋ + 1

/-- Python `round(x, ndigits)` for `ndigits ≥ 0`, on exact rationals. -/
def pyRound (x : ℚ) (ndigits : ℕ) : ℚ :=
  (pyRoundInt (x * 10 ^ ndigits) : ℚ) / 10 ^ ndigits

/-- `session.query(Customer).filter_by(customer_id=customer_id).first()`. -/
def findCustomer (db : Database) (customer_id : ℕ) : Option Customer :=
  db.customers.find? (fun c => c.customer_id == customer_id)

/-- `session.query(Employment).filter_by(customer_id=customer_id).first()`. -/
def findEmployment (db : Database) (customer_id : ℕ) : Option Employment :=
  db.employments.find? (fun e => e.customer_id == customer_id)

/-- Lines 81-85 of `ml/predict.py`: `high_risk_flag = int((debt_to_income_ratio
> 50) or (loan_to_income_ratio > 36) or (monthly_income < 30000))`.  Note that
the source computes this value but does not insert it into the feature
dictionary it returns. -/
def high_risk_flag (debt_to_income_ratio loan_to_income_ratio monthly_income : ℚ) : ℚ :=
  if debt_to_income_ratio > 50 ∨ loan_to_income_ratio > 36 ∨ monthly_income < 30000
  then 1 else 0

/-- The feature dictionary built at lines 71-136 of `ml/predict.py`, in the
source's insertion order (Python dicts preserve insertion order).  `365.25`
is the exact rational `1461/4`. -/
def buildFeatures (c : Customer) (e : Employment) (today : ℤ)
    (loan_amount loan_tenure_months interest_rate : ℚ) (loan_purpose : String) :
    List (String × ℚ) :=
  let age : ℚ := ((today - c.date_of_birth : ℤ) : ℚ) / (1461/4)
  let estimated_emi := loan_amount / loan_tenure_months
  let debt_to_income_ratio := (estimated_emi / e.monthly_income) * 100
  let loan_to_income_ratio := loan_amount / e.monthly_income
  let age_group_encoded : ℚ :=
    if age ≤ 25 then 0 else if age ≤ 35 then 1 else if age ≤ 45 then 2
    else if age ≤ 55 then 3 else 4
  let experience_encoded : ℚ :=
    if e.years_of_experience ≤ 2 then 0 else if e.years_of_experience ≤ 5 then 1
    else if e.years_of_experience ≤ 10 then 2 else 3
  let gender_encoded : ℚ := if c.gender = "Male" then 1 else 0
  [ ("age", age)
  , ("gender_encoded", gender_encoded)
  , ("age_group_encoded", age_group_encoded)
  , ("monthly_income", e.monthly_income)
  , ("years_of_experience", e.years_of_experience)
  , ("experience_encoded", experience_encoded)
  , ("loan_amount", loan_amount)
  , ("loan_tenure_months", loan_tenure_months)
  , ("interest_rate", interest_rate)
  , ("debt_to_income_ratio", debt_to_income_ratio)
  , ("loan_to_income_ratio", loan_to_income_ratio)
  , ("estimated_emi", estimated_emi)
  , ("employment_Self-Employed", if e.employment_type = "Self-Employed" then 1 else 0)
  , ("employment_Salaried", if e.employment_type = "Salaried" then 1 else 0)
  , ("purpose_Business Expansion", if loan_purpose = "Business Expansion" then 1 else 0)
  , ("purpose_Debt Consolidation", if loan_purpose = "Debt Consolidation" then 1 else 0)
  , ("purpose_Education", if loan_purpose = "Education" then 1 else 0)
  , ("purpose_Home Purchase", if loan_purpose = "Home Purchase" then 1 else 0)
  , ("purpose_Home Renovation", if loan_purpose = "Home Renovation" then 1 else 0)
  , ("purpose_Medical Emergency", if loan_purpose = "Medical Emergency" then 1 else 0)
  , ("purpose_Vehicle Purchase", if loan_purpose = "Vehicle Purchase" then 1 else 0)
  , ("purpose_Wedding Expenses", if loan_purpose = "Wedding Expenses" then 1 else 0)
  , ("state_Gujarat", if c.state = "Gujarat" then 1 else 0)
  , ("state_Maharashtra", if c.state = "Maharashtra" then 1 else 0)
  , ("state_Other", if c.state ∉ ["Gujarat", "Maharashtra", "Punjab", "Telangana"] then 1 else 0)
  , ("state_Punjab", if c.state = "Punjab" then 1 else 0)
  , ("state_Telangana", if c.state = "Telangana" then 1 else 0)
  ]

/-- `prepare_features_for_prediction` (lines 53-139 of `ml/predict.py`).
The two `ValueError`s are the two lookups failing; the `zeroDivision`
branches sit exactly where Python would raise `ZeroDivisionError`: first the
division `loan_amount / loan_tenure_months` (line 77), then
`estimated_emi / float(employment.monthly_income)` (line 78).  There is no
explicit zero-income check anywhere in the source. -/
def prepare_features_for_prediction (db : Database) (today : ℤ) (customer_id : ℕ)
    (loan_amount loan_tenure_months interest_rate : ℚ) (loan_purpose : String) :
    Except PredError (List (String × ℚ)) :=
  match findCustomer db customer_id with
  | none => .error (.notFoundCustomer customer_id)
  | some c =>
    match findEmployment db customer_id with
    | none => .error (.notFoundEmployment customer_id)
    | some e =>
      if loan_tenure_months = 0 then .error .zeroDivision
      else if e.monthly_income = 0 then .error .zeroDivision
      else .ok (buildFeatures c e today loan_amount loan_tenure_months interest_rate loan_purpose)

/-- `aligned[col] = value` for one pandas column: every cell of column `name`
is overwritten (keys are untouched). -/
def setColumn (l : List (String × ℚ)) (name : String) (v : ℚ) : List (String × ℚ) :=
  l.map (fun q => if q.1 = name then (q.1, v) else q)

/-- `align_features_with_model` (lines 142-148 of `ml/predict.py`): start
from an all-zero frame whose columns are the model's feature names, then copy
over each input column that the model also declares.  Input columns the model
does not declare are dropped. -/
def align_features_with_model (feature_df : List (String × ℚ))
    (model_feature_names : List String) : List (String × ℚ) :=
  feature_df.foldl
    (fun aligned p => if p.1 ∈ model_feature_names then setColumn aligned p.1 p.2 else aligned)
    (model_feature_names.map (fun n => (n, (0:ℚ))))

/-- Stable insertion into a list sorted by descending absolute impact: the new
element passes over an existing one only when that one has strictly larger
absolute value, so earlier elements win ties, as with Python's stable sort. -/
def insertByAbs (p : String × ℚ) : List (String × ℚ) → List (String × ℚ)
  | [] => [p]
  | q :: l => if |p.2| < |q.2| then q :: insertByAbs p l else p :: q :: l

/-- `sorted(contributions, key=lambda x: abs(x[1]), reverse=True)`. -/
def sortByAbsDesc : List (String × ℚ) → List (String × ℚ)
  | [] => []
  | p :: l => insertByAbs p (sortByAbsDesc l)

/-- Lines 217-226 of `ml/predict.py`: zip names with contributions, sort by
descending absolute impact, keep the first 5, and drop entries whose absolute
impact is not strictly above `0.001`. -/
def formatContribs (feature_names : List String) (risk_contributors : List ℚ) :
    List (String × ℚ) :=
  ((sortByAbsDesc (feature_names.zip risk_contributors)).take 5).filter
    (fun p => decide ((1:ℚ)/1000 < |p.2|))

/-- The heuristic fallback block (lines 192-209 of `ml/predict.py`): a zero
vector over the input's columns, with the entries at the first index of
`debt_to_income_ratio`, `loan_to_income_ratio` and `monthly_income` (when
present) set to `(dti - 40) * 0.015`, `(lti - 30) * 0.01` and
`(50000 - income) * 0.00001` respectively. -/
def fallbackContribs (input_df : List (String × ℚ)) : List ℚ :=
  let feature_names := input_df.map Prod.fst
  let dti := ((input_df.lookup "debt_to_income_ratio").getD 0)
  let lti := ((input_df.lookup "loan_to_income_ratio").getD 0)
  let income := ((input_df.lookup "monthly_income").getD 0)
  let rc0 := List.replicate feature_names.length (0:ℚ)
  let rc1 := if "debt_to_income_ratio" ∈ feature_names then
      rc0.set (feature_names.indexOf "debt_to_income_ratio") ((dti - 40) * (15/1000)) else rc0
  let rc2 := if "loan_to_income_ratio" ∈ feature_names then
      rc1.set (feature_names.indexOf "loan_to_income_ratio") ((lti - 30) * (1/100)) else rc1
  if "monthly_income" ∈ feature_names then
    rc2.set (feature_names.indexOf "monthly_income") ((50000 - income) * (1/100000)) else rc2

/-- `get_shap_explanation` (lines 154-229 of `ml/predict.py`).
`shapResult` stands for the outcome of the external SHAP library call:
`some rc` when it produced a (flattened) contribution vector, `none` when
SHAP is not installed or raised.  `fallbackOk` models the `try/except` around
the heuristic fallback block: `false` means that block raised, in which case
the source returns `[]`. -/
def get_shap_explanation (shapResult : Option (List ℚ)) (fallbackOk : Bool)
    (input_df : List (String × ℚ)) : List (String × ℚ) :=
  let feature_names := input_df.map Prod.fst
  match shapResult with
  | some risk_contributors => formatContribs feature_names risk_contributors
  | none =>
    if fallbackOk then formatContribs feature_names (fallbackContribs input_df)
    else []

/-- The `factors` sub-record of the response (lines 280-284 of `ml/predict.py`). -/
structure Factors where
  debt_to_income_ratio : ℚ
  loan_to_income_ratio : ℚ
  monthly_income : ℚ

/-- The response dictionary of `predict_credit_risk` (lines 273-285). -/
structure PredictionResult where
  credit_score : ℚ
  risk_probability : ℚ
  risk_level : String
  recommendation : String
  model_confidence : ℚ
  contributors : List (String × ℚ)
  factors : Factors

/-- Lines 254-256 and 274 of `ml/predict.py`: `850 - p * 550`, clamped into
`[300, 850]`, then `round(·, 2)` for the response field. -/
def creditScoreOf (risk_probability : ℚ) : ℚ :=
  pyRound (max 300 (min 850 (850 - risk_probability * 550))) 2

/-- Lines 254-285 of `ml/predict.py`: from the classifier probability,
derive the credit score, risk tier, recommendation and confidence, and pack
the response. -/
def buildResult (risk_probability : ℚ) (contributors : List (String × ℚ))
    (factors : Factors) : PredictionResult :=
  { credit_score := creditScoreOf risk_probability
  , risk_probability := pyRound risk_probability 4
  , risk_level :=
      if risk_probability < 3/10 then "Low"
      else if risk_probability < 1/2 then "Medium" else "High"
  , recommendation :=
      if risk_probability < 3/10 then "Approve"
      else if risk_probability < 1/2 then "Manual Review Required"
      else "Reject or Require Collateral"
  , model_confidence := pyRound (max risk_probability (1 - risk_probability)) 4
  , contributors := contributors
  , factors := factors }

/-- The `factors` entry (lines 280-284): the three ratios read back from the
aligned frame, defaulting to 0 when the model schema dropped them, the two
ratios rounded to 2 digits. -/
def factorsOf (aligned : List (String × ℚ)) : Factors :=
  { debt_to_income_ratio := pyRound ((aligned.lookup "debt_to_income_ratio").getD 0) 2
  , loan_to_income_ratio := pyRound ((aligned.lookup "loan_to_income_ratio").getD 0) 2
  , monthly_income := (aligned.lookup "monthly_income").getD 0 }

/-- `predict_credit_risk` (lines 232-287 of `ml/predict.py`).  `model` is the
opaque classifier (its positive-class `predict_proba`), `feature_names` the
artifact's declared column list; `shapResult` and `fallbackOk` are the
explainability oracles as in `get_shap_explanation`. -/
def predict_credit_risk (db : Database) (today : ℤ)
    (model : List (String × ℚ) → ℚ) (feature_names : List String)
    (shapResult : Option (List ℚ)) (fallbackOk : Bool)
    (customer_id : ℕ) (loan_amount loan_tenure_months interest_rate : ℚ)
    (loan_purpose : String) : Except PredError PredictionResult :=
  match prepare_features_for_prediction db today customer_id loan_amount
      loan_tenure_months interest_rate loan_purpose with
  | .error e => .error e
  | .ok feature_df =>
    let aligned := align_features_with_model feature_df feature_names
    let risk_probability := model aligned
    let contributors := get_shap_explanation shapResult fallbackOk aligned
    .ok (buildResult risk_probability contributors (factorsOf aligned))

/-- One output item of `batch_predict`: either a well-formed prediction or the
per-item error record `{error, customer_id}`. -/
inductive BatchItem where
  | ok (result : PredictionResult)
  | errRec (error : String) (customer_id : ℕ)

/-- Returns `true` exactly on the per-item error records. -/
def BatchItem.isErrRec : BatchItem → Bool
  | .ok _ => false
  | .errRec _ _ => true

/-- One loan application, as passed to `batch_predict`. -/
structure BatchApp where
  customer_id : ℕ
  loan_amount : ℚ
  loan_tenure_months : ℚ
  interest_rate : ℚ
  loan_purpose : String

/-- The `try/except` body of the `batch_predict` loop for one application. -/
def predictItem (db : Database) (today : ℤ) (model : List (String × ℚ) → ℚ)
    (feature_names : List String) (shapResult : Option (List ℚ)) (fallbackOk : Bool)
    (a : BatchApp) : BatchItem :=
  match predict_credit_risk db today model feature_names shapResult fallbackOk
      a.customer_id a.loan_amount a.loan_tenure_months a.interest_rate a.loan_purpose with
  | .ok r => .ok r
  | .error e => .errRec (errMsg e) a.customer_id

/-- `batch_predict` (lines 291-329 of `ml/predict.py`): the accumulating
`for` loop, appending one item per application. -/
def batch_predict (db : Database) (today : ℤ) (model : List (String × ℚ) → ℚ)
    (feature_names : List String) (shapResult : Option (List ℚ)) (fallbackOk : Bool)
    (applications : List BatchApp) : List BatchItem :=
  applications.foldl
    (fun results a => results ++ [predictItem db today model feature_names shapResult fallbackOk a])
    []

/-- `calculate_emi` from `backend/utils/calculations.py`: the standard
amortization formula `P * r * (1+r)^n / ((1+r)^n - 1)` with
`r = annual_rate / 1200`, rounded to 2 digits (display EMI — deliberately
different from the `estimated_emi` feature). -/
def calculate_emi (principal annual_rate : ℚ) (tenure_months : ℕ) : ℚ :=
  let monthly_rate := annual_rate / (12 * 100)
  if monthly_rate = 0 then principal / tenure_months
  else
    pyRound (principal * monthly_rate * ((1 + monthly_rate) ^ tenure_months)
      / (((1 + monthly_rate) ^ tenure_months) - 1)) 2

/-- Closed form of the heuristic fallback block: the impact the fallback
assigns to one feature name (0 for every feature other than the three
economically meaningful ones).  `fallbackContribs` is proven equal to a map
of this function over the input's columns when the columns are distinct. -/
def fallbackValue (dti lti income : ℚ) (n : String) : ℚ :=
  if n = "debt_to_income_ratio" then (dti - 40) * (15/1000)
  else if n = "loan_to_income_ratio" then (lti - 30) * (1/100)
  else if n = "monthly_income" then (50000 - income) * (1/100000)
  else 0

/-! ### Properties of Python rounding -/

lemma pyRoundInt_ge_floor (s : ℚ) : ⌊s⌋ ≤ pyRoundInt s := by
  unfold pyRoundInt; split_ifs <;> omega

lemma pyRoundInt_le_floor_add_one (s : ℚ) : pyRoundInt s ≤ ⌊s⌋ + 1 := by
  unfold pyRoundInt; split_ifs <;> omega

lemma pyRoundInt_mono {s t : ℚ} (h : s ≤ t) : pyRoundInt s ≤ pyRoundInt t := by
  rcases lt_or_le ⌊s⌋ ⌊t⌋ with hf | hf
  · exact le_trans (pyRoundInt_le_floor_add_one s)
      (le_trans (by omega) (pyRoundInt_ge_floor t))
  · have hf2 : ⌊s⌋ = ⌊t⌋ := le_antisymm (Int.floor_le_floor h) hf
    unfold pyRoundInt
    rw [hf2]
    split_ifs <;> first | omega | (exfalso; linarith)

lemma pyRoundInt_intCast (k : ℤ) : pyRoundInt (k : ℚ) = k := by
  unfold pyRoundInt
  rw [Int.floor_intCast]
  norm_num

lemma pyRound_intCast (k : ℤ) (n : ℕ) : pyRound (k : ℚ) n = (k : ℚ) := by
  unfold pyRound
  have h1 : ((k : ℚ) * 10 ^ n) = ((k * 10 ^ n : ℤ) : ℚ) := by push_cast; ring
  have h10 : (10 : ℚ) ^ n ≠ 0 := by positivity
  rw [h1, pyRoundInt_intCast]
  push_cast
  field_simp

lemma pyRound_mono {x y : ℚ} (n : ℕ) (h : x ≤ y) : pyRound x n ≤ pyRound y n := by
  unfold pyRound
  have h10 : (0 : ℚ) < 10 ^ n := by positivity
  have hm : pyRoundInt (x * 10 ^ n) ≤ pyRoundInt (y * 10 ^ n) :=
    pyRoundInt_mono (mul_le_mul_of_nonneg_right h (le_of_lt h10))
  have hq : ((pyRoundInt (x * 10 ^ n) : ℚ)) ≤ ((pyRoundInt (y * 10 ^ n) : ℚ)) := by
    exact_mod_cast hm
  gcongr

lemma pyRound_300 : pyRound (300 : ℚ) 2 = 300 := by
  have : ((300 : ℚ)) = ((300 : ℤ) : ℚ) := by norm_num
  rw [this, pyRound_intCast]

lemma pyRound_850 : pyRound (850 : ℚ) 2 = 850 := by
  have : ((850 : ℚ)) = ((850 : ℤ) : ℚ) := by norm_num
  rw [this, pyRound_intCast]

lemma creditScoreOf_ge (p : ℚ) : 300 ≤ creditScoreOf p := by
  unfold creditScoreOf
  calc (300 : ℚ) = pyRound 300 2 := pyRound_300.symm
    _ ≤ _ := pyRound_mono 2 (le_max_left _ _)

lemma creditScoreOf_le (p : ℚ) : creditScoreOf p ≤ 850 := by
  unfold creditScoreOf
  calc pyRound (max 300 (min 850 (850 - p * 550))) 2
      ≤ pyRound 850 2 := pyRound_mono 2 (max_le (by norm_num) (min_le_left _ _))
    _ = 850 := pyRound_850

lemma creditScoreOf_antitone {p1 p2 : ℚ} (h : p1 ≤ p2) :
    creditScoreOf p2 ≤ creditScoreOf p1 := by
  unfold creditScoreOf
  apply pyRound_mono
  apply max_le_max le_rfl
  apply min_le_min le_rfl
  linarith

/-! ### Claims about the risk scorer (C3, C4, C7) -/

/-- C3: for every classifier probability p in [0,1], risk_level is Low iff
p < 0.30 (recommendation "Approve"), Medium iff 0.30 ≤ p < 0.50
(recommendation "Manual Review Required"), High iff p ≥ 0.50 (recommendation
"Reject or Require Collateral"); the boundary values 0.30 and 0.50 fall in
the upper tier. -/
theorem risk_tier_policy (p : ℚ) (contributors : List (String × ℚ)) (factors : Factors)
    (h0 : 0 ≤ p) (h1 : p ≤ 1) :
    ((buildResult p contributors factors).risk_level = "Low" ↔ p < 3/10)
    ∧ ((buildResult p contributors factors).risk_level = "Medium" ↔ 3/10 ≤ p ∧ p < 1/2)
    ∧ ((buildResult p contributors factors).risk_level = "High" ↔ 1/2 ≤ p)
    ∧ ((buildResult p contributors factors).risk_level = "Low"
        ↔ (buildResult p contributors factors).recommendation = "Approve")
    ∧ ((buildResult p contributors factors).risk_level = "Medium"
        ↔ (buildResult p contributors factors).recommendation = "Manual Review Required")
    ∧ ((buildResult p contributors factors).risk_level = "High"
        ↔ (buildResult p contributors factors).recommendation = "Reject or Require Collateral")
    ∧ (buildResult (3/10) contributors factors).risk_level = "Medium"
    ∧ (buildResult (1/2) contributors factors).risk_level = "High" := by
  rcases lt_or_le p (3/10) with hp3 | hp3
  · have hp5 : p < 1/2 := by linarith
    norm_num [buildResult, hp3, hp5, not_le.mpr hp3, not_le.mpr hp5]
    refine ⟨by decide, by decide, by decide, by decide⟩
  · rcases lt_or_le p (1/2) with hp5 | hp5
    · norm_num [buildResult, not_lt.mpr hp3, hp3, hp5, not_le.mpr hp5]
      refine ⟨by decide, by decide, by decide, by decide⟩
    · norm_num [buildResult, not_lt.mpr hp3, not_lt.mpr hp5, hp3, hp5]
      refine ⟨by decide, by decide, by decide, by decide⟩

/-- Witness for C3: at p = 1/5 the tier is Low. -/
theorem risk_tier_policy_witness :
    (buildResult (1/5) [] ⟨0, 0, 0⟩).risk_level = "Low" :=
  ((risk_tier_policy (1/5) [] ⟨0, 0, 0⟩ (by norm_num) (by norm_num)).1).mpr (by norm_num)

/-- C4 (counterexample): on a concrete run whose classifier returns p = 1/3,
the credit_score field of the returned result is 666.67 — the clamp value
rounded to two digits — and not the raw clamp value 2000/3 the claim
asserts. -/
theorem credit_score_not_plain_clamp :
    ((predict_credit_risk ⟨[⟨1, 0, "Male", "Gujarat"⟩], [⟨1, 80000, 5, "Salaried"⟩]⟩ 0
        (fun _ => (1/3 : ℚ)) ["monthly_income"] none true
        1 1000000 60 (19/2) "Home Purchase").map (fun r => r.credit_score))
      = .ok (66667/100)
    ∧ ((66667 : ℚ)/100) ≠ max 300 (min 850 (850 - (1/3) * 550)) := by
  constructor
  · show Except.ok (creditScoreOf (1/3)) = _
    have : creditScoreOf (1/3) = 66667/100 := by
      unfold creditScoreOf pyRound pyRoundInt
      norm_num [min_def, max_def]
    rw [this]
  · norm_num [min_def, max_def]

/-- C4 (amended): the credit_score field equals clamp(850 − p·550, 300, 850)
rounded to two decimal digits by Python round; in particular p = 0 yields 850
and p = 1 yields 300 exactly. -/
theorem credit_score_clamp_rounded (p : ℚ) (c : List (String × ℚ)) (f : Factors) :
    (buildResult p c f).credit_score = pyRound (max 300 (min 850 (850 - p * 550))) 2
    ∧ (buildResult 0 c f).credit_score = 850
    ∧ (buildResult 1 c f).credit_score = 300 := by
  refine ⟨rfl, ?_, ?_⟩
  · show creditScoreOf 0 = 850
    unfold creditScoreOf
    norm_num [min_def, max_def, pyRound_850]
  · show creditScoreOf 1 = 300
    unfold creditScoreOf
    norm_num [min_def, max_def, pyRound_300]

/-- C7: every credit_score returned by predict_credit_risk lies in [300, 850],
and the score is a non-increasing function of the classifier probability. -/
theorem credit_score_range_and_monotone :
    (∀ (db : Database) (today : ℤ) (model : List (String × ℚ) → ℚ)
        (feature_names : List String) (shapResult : Option (List ℚ)) (fallbackOk : Bool)
        (customer_id : ℕ) (loan_amount loan_tenure_months interest_rate : ℚ)
        (loan_purpose : String) (r : PredictionResult),
        predict_credit_risk db today model feature_names shapResult fallbackOk
          customer_id loan_amount loan_tenure_months interest_rate loan_purpose = .ok r →
        300 ≤ r.credit_score ∧ r.credit_score ≤ 850)
    ∧ (∀ (p1 p2 : ℚ) (c : List (String × ℚ)) (f : Factors), 0 ≤ p1 → p1 < p2 → p2 ≤ 1 →
        (buildResult p2 c f).credit_score ≤ (buildResult p1 c f).credit_score) := by
  constructor
  · intro db today model feature_names shapResult fallbackOk cid la ltm ir lp r h
    unfold predict_credit_risk at h
    rcases hpf : prepare_features_for_prediction db today cid la ltm ir lp with e | fv
    · rw [hpf] at h
      simp at h
    · rw [hpf] at h
      simp only [Except.ok.injEq] at h
      subst h
      exact ⟨creditScoreOf_ge _, creditScoreOf_le _⟩
  · intro p1 p2 c f h0 h12 h2
    exact creditScoreOf_antitone (le_of_lt h12)

/-- Witness for C7: the score at p = 1/2 is at most the score at p = 1/4. -/
theorem credit_score_range_and_monotone_witness :
    (buildResult (1/2) [] ⟨0, 0, 0⟩).credit_score ≤ (buildResult (1/4) [] ⟨0, 0, 0⟩).credit_score :=
  credit_score_range_and_monotone.2 (1/4) (1/2) [] ⟨0, 0, 0⟩ (by norm_num) (by norm_num)
    (by norm_num)

/-! ### Claims about the feature builder (C1, C2, C9, C10) -/

/-- C1 (refuting the spec's InvalidState requirement): with a zero monthly
income on file, predict_credit_risk fails with the division error raised at
line 78 of `ml/predict.py` — there is no InvalidState-style precondition
check, the source divides directly (a rational embedding has no NaN; no
result is produced at all). -/
theorem income_zero_division_error :
    predict_credit_risk ⟨[⟨1, 0, "Male", "Gujarat"⟩], [⟨1, 0, 5, "Salaried"⟩]⟩ 0
      (fun _ => (1/3 : ℚ)) ["monthly_income"] none true
      1 1000000 60 (19/2) "Home Purchase" = .error .zeroDivision := rfl

/-- C2: with positive income, the builder derives estimated_emi by plain
division loan/tenure, dti = emi/income·100, lti = loan/income, and the
high-risk flag is 1 exactly when dti > 50 or lti > 36 or income < 30000;
at income 80000, loan 1000000, tenure 60 the values are 50000/3 (16666.67),
125/6 (≈20.83), 25/2 and flag 0, and the display amortization formula
calculate_emi gives a different EMI on the same request. -/
theorem feature_derivations (db : Database) (today : ℤ) (customer_id : ℕ)
    (loan_amount loan_tenure_months interest_rate : ℚ) (loan_purpose : String)
    (c : Customer) (e : Employment)
    (hc : findCustomer db customer_id = some c)
    (he : findEmployment db customer_id = some e)
    (hinc : 0 < e.monthly_income) (ht : loan_tenure_months ≠ 0) :
    prepare_features_for_prediction db today customer_id loan_amount loan_tenure_months
        interest_rate loan_purpose
      = .ok (buildFeatures c e today loan_amount loan_tenure_months interest_rate loan_purpose)
    ∧ (buildFeatures c e today loan_amount loan_tenure_months interest_rate
        loan_purpose).lookup "estimated_emi" = some (loan_amount / loan_tenure_months)
    ∧ (buildFeatures c e today loan_amount loan_tenure_months interest_rate
        loan_purpose).lookup "debt_to_income_ratio"
      = some (loan_amount / loan_tenure_months / e.monthly_income * 100)
    ∧ (buildFeatures c e today loan_amount loan_tenure_months interest_rate
        loan_purpose).lookup "loan_to_income_ratio" = some (loan_amount / e.monthly_income)
    ∧ (high_risk_flag (loan_amount / loan_tenure_months / e.monthly_income * 100)
          (loan_amount / e.monthly_income) e.monthly_income = 1
        ↔ (loan_amount / loan_tenure_months / e.monthly_income * 100 > 50
            ∨ loan_amount / e.monthly_income > 36 ∨ e.monthly_income < 30000))
    ∧ (high_risk_flag (loan_amount / loan_tenure_months / e.monthly_income * 100)
          (loan_amount / e.monthly_income) e.monthly_income = 0
        ↔ ¬(loan_amount / loan_tenure_months / e.monthly_income * 100 > 50
            ∨ loan_amount / e.monthly_income > 36 ∨ e.monthly_income < 30000))
    ∧ (buildFeatures ⟨1, 0, "Male", "Gujarat"⟩ ⟨1, 80000, 5, "Salaried"⟩ 0
        1000000 60 (19/2) "Home Purchase").lookup "estimated_emi" = some (50000/3)
    ∧ pyRound (50000/3) 2 = 1666667/100
    ∧ (buildFeatures ⟨1, 0, "Male", "Gujarat"⟩ ⟨1, 80000, 5, "Salaried"⟩ 0
        1000000 60 (19/2) "Home Purchase").lookup "debt_to_income_ratio" = some (125/6)
    ∧ pyRound (125/6) 2 = 2083/100
    ∧ (buildFeatures ⟨1, 0, "Male", "Gujarat"⟩ ⟨1, 80000, 5, "Salaried"⟩ 0
        1000000 60 (19/2) "Home Purchase").lookup "loan_to_income_ratio" = some (25/2)
    ∧ high_risk_flag (125/6) (25/2) 80000 = 0
    ∧ calculate_emi 1000000 (19/2) 60 ≠ 50000/3 := by
  refine ⟨?_, rfl, rfl, rfl, ?_, ?_, ?_, ?_, ?_, ?_, ?_, ?_, ?_⟩
  · unfold prepare_features_for_prediction
    rw [hc, he]
    dsimp only
    rw [if_neg ht, if_neg (ne_of_gt hinc)]
  · unfold high_risk_flag
    split_ifs with h
    · simp [h]
    · norm_num [h]
  · unfold high_risk_flag
    split_ifs with h
    · norm_num [h]
    · simp [h]
  · have hr : (buildFeatures ⟨1, 0, "Male", "Gujarat"⟩ ⟨1, 80000, 5, "Salaried"⟩ 0
        1000000 60 (19/2) "Home Purchase").lookup "estimated_emi"
        = some ((1000000 : ℚ)/60) := rfl
    rw [hr]; norm_num
  · unfold pyRound pyRoundInt; norm_num
  · have hr : (buildFeatures ⟨1, 0, "Male", "Gujarat"⟩ ⟨1, 80000, 5, "Salaried"⟩ 0
        1000000 60 (19/2) "Home Purchase").lookup "debt_to_income_ratio"
        = some ((1000000 : ℚ)/60/80000*100) := rfl
    rw [hr]; norm_num
  · unfold pyRound pyRoundInt; norm_num
  · have hr : (buildFeatures ⟨1, 0, "Male", "Gujarat"⟩ ⟨1, 80000, 5, "Salaried"⟩ 0
        1000000 60 (19/2) "Home Purchase").lookup "loan_to_income_ratio"
        = some ((1000000 : ℚ)/80000) := rfl
    rw [hr]; norm_num
  · unfold high_risk_flag
    rw [if_neg (by norm_num)]
  · intro hEq
    unfold calculate_emi at hEq
    rw [if_neg (by norm_num)] at hEq
    unfold pyRound at hEq
    have h3 : ((pyRoundInt ((1000000 : ℚ) * ((19:ℚ)/2 / (12 * 100))
        * (1 + (19:ℚ)/2 / (12 * 100)) ^ 60 / ((1 + (19:ℚ)/2 / (12 * 100)) ^ 60 - 1) * 10 ^ 2) : ℤ) : ℚ)
        * 3 = 5000000 := by
      field_simp at hEq
      linarith
    have h4 : (pyRoundInt ((1000000 : ℚ) * ((19:ℚ)/2 / (12 * 100))
        * (1 + (19:ℚ)/2 / (12 * 100)) ^ 60 / ((1 + (19:ℚ)/2 / (12 * 100)) ^ 60 - 1) * 10 ^ 2))
        * 3 = 5000000 := by exact_mod_cast h3
    omega

/-- Witness for C2: the concrete 80000-income customer goes through the
feature builder successfully. -/
theorem feature_derivations_witness :
    prepare_features_for_prediction ⟨[⟨1, 0, "Male", "Gujarat"⟩], [⟨1, 80000, 5, "Salaried"⟩]⟩
        0 1 1000000 60 (19/2) "Home Purchase"
      = .ok (buildFeatures ⟨1, 0, "Male", "Gujarat"⟩ ⟨1, 80000, 5, "Salaried"⟩ 0
          1000000 60 (19/2) "Home Purchase") :=
  (feature_derivations ⟨[⟨1, 0, "Male", "Gujarat"⟩], [⟨1, 80000, 5, "Salaried"⟩]⟩ 0 1
    1000000 60 (19/2) "Home Purchase" ⟨1, 0, "Male", "Gujarat"⟩ ⟨1, 80000, 5, "Salaried"⟩
    rfl rfl (by norm_num) (by norm_num)).1

/-- C9: an unknown customer id fails with the customer-not-found error, a
known customer with no employment record fails with the distinct
employment-not-found error, and the two errors (and their messages) are
distinguishable. -/
theorem notFound_distinct (db : Database) (today : ℤ) (model : List (String × ℚ) → ℚ)
    (feature_names : List String) (shapResult : Option (List ℚ)) (fallbackOk : Bool)
    (customer_id : ℕ) (loan_amount loan_tenure_months interest_rate : ℚ)
    (loan_purpose : String) :
    (findCustomer db customer_id = none →
      predict_credit_risk db today model feature_names shapResult fallbackOk customer_id
        loan_amount loan_tenure_months interest_rate loan_purpose
        = .error (.notFoundCustomer customer_id))
    ∧ (∀ c, findCustomer db customer_id = some c → findEmployment db customer_id = none →
      predict_credit_risk db today model feature_names shapResult fallbackOk customer_id
        loan_amount loan_tenure_months interest_rate loan_purpose
        = .error (.notFoundEmployment customer_id))
    ∧ PredError.notFoundCustomer customer_id ≠ PredError.notFoundEmployment customer_id
    ∧ errMsg (.notFoundCustomer customer_id) ≠ errMsg (.notFoundEmployment customer_id) := by
  refine ⟨?_, ?_, by simp, ?_⟩
  · intro h
    unfold predict_credit_risk prepare_features_for_prediction
    rw [h]
  · intro c hc he
    unfold predict_credit_risk prepare_features_for_prediction
    rw [hc, he]
  · intro h
    have h2 : some 'C' = some 'E' := congrArg (fun s => s.data.head?) h
    simp at h2

/-- Witness for C9: the empty store has no customer 7, and scoring fails with
the customer-not-found error. -/
theorem notFound_distinct_witness :
    predict_credit_risk ⟨[], []⟩ 0 (fun _ => 0) [] none true 7 1 1 1 "Education"
      = .error (.notFoundCustomer 7) :=
  (notFound_distinct ⟨[], []⟩ 0 (fun _ => 0) [] none true 7 1 1 1 "Education").1 rfl

/-- C10: exactly one of the five state one-hot columns of the built feature
vector is 1 and the other four are 0, for every customer, and state_Other is
1 exactly when the state is none of the four named states. -/
theorem state_one_hot (c : Customer) (e : Employment) (today : ℤ)
    (loan_amount loan_tenure_months interest_rate : ℚ) (loan_purpose : String) :
    let fv := buildFeatures c e today loan_amount loan_tenure_months interest_rate loan_purpose
    let g := (fv.lookup "state_Gujarat").getD 0
    let m := (fv.lookup "state_Maharashtra").getD 0
    let pj := (fv.lookup "state_Punjab").getD 0
    let tl := (fv.lookup "state_Telangana").getD 0
    let ot := (fv.lookup "state_Other").getD 0
    ((g = 1 ∧ m = 0 ∧ pj = 0 ∧ tl = 0 ∧ ot = 0)
      ∨ (m = 1 ∧ g = 0 ∧ pj = 0 ∧ tl = 0 ∧ ot = 0)
      ∨ (pj = 1 ∧ g = 0 ∧ m = 0 ∧ tl = 0 ∧ ot = 0)
      ∨ (tl = 1 ∧ g = 0 ∧ m = 0 ∧ pj = 0 ∧ ot = 0)
      ∨ (ot = 1 ∧ g = 0 ∧ m = 0 ∧ pj = 0 ∧ tl = 0))
    ∧ (ot = 1 ↔ c.state ∉ ["Gujarat", "Maharashtra", "Punjab", "Telangana"]) := by
  intro fv g m pj tl ot
  have hg : g = (if c.state = "Gujarat" then (1:ℚ) else 0) := rfl
  have hm : m = (if c.state = "Maharashtra" then (1:ℚ) else 0) := rfl
  have hpj : pj = (if c.state = "Punjab" then (1:ℚ) else 0) := rfl
  have htl : tl = (if c.state = "Telangana" then (1:ℚ) else 0) := rfl
  have hot : ot = (if c.state ∉ ["Gujarat", "Maharashtra", "Punjab", "Telangana"]
      then (1:ℚ) else 0) := rfl
  simp only [hg, hm, hpj, htl, hot]
  by_cases h1 : c.state = "Gujarat"
  · norm_num [h1]
    exact ⟨by decide, by decide, by decide⟩
  · by_cases h2 : c.state = "Maharashtra"
    · norm_num [h1, h2]
      exact ⟨by decide, by decide, by decide⟩
    · by_cases h3 : c.state = "Punjab"
      · norm_num [h1, h2, h3]
        exact ⟨by decide, by decide, by decide⟩
      · by_cases h4 : c.state = "Telangana"
        · norm_num [h1, h2, h3, h4]
          exact ⟨by decide, by decide, by decide⟩
        · norm_num [h1, h2, h3, h4]

/-! ### Lemmas about feature alignment -/

lemma lookup_cons (p : String × ℚ) (t : List (String × ℚ)) (n : String) :
    List.lookup n (p :: t) = if n = p.1 then some p.2 else List.lookup n t := by
  rcases p with ⟨k, v⟩
  by_cases h : n = k
  · have hb : (n == k) = true := by simp [h]
    simp [List.lookup, hb, h]
  · have hb : (n == k) = false := by simp [h]
    simp [List.lookup, hb, h]

lemma lookup_eq_none_of_not_mem {l : List (String × ℚ)} {n : String}
    (h : n ∉ l.map Prod.fst) : List.lookup n l = none := by
  induction l with
  | nil => rfl
  | cons p t ih =>
    simp only [List.map_cons, List.mem_cons, not_or] at h
    rw [lookup_cons, if_neg h.1]
    exact ih h.2

lemma lookup_some_of_mem {l : List (String × ℚ)} {n : String}
    (h : n ∈ l.map Prod.fst) : ∃ w, List.lookup n l = some w := by
  induction l with
  | nil => simp at h
  | cons p t ih =>
    by_cases hn : n = p.1
    · exact ⟨p.2, by rw [lookup_cons, if_pos hn]⟩
    · simp only [List.map_cons, List.mem_cons] at h
      rcases h with h | h
      · exact absurd h hn
      · obtain ⟨w, hw⟩ := ih h
        exact ⟨w, by rw [lookup_cons, if_neg hn, hw]⟩

lemma map_fst_setColumn (l : List (String × ℚ)) (name : String) (v : ℚ) :
    (setColumn l name v).map Prod.fst = l.map Prod.fst := by
  unfold setColumn
  rw [List.map_map]
  have h : (Prod.fst ∘ fun q : String × ℚ => if q.1 = name then (q.1, v) else q) = Prod.fst := by
    funext q
    by_cases h : q.1 = name <;> simp [h]
  rw [h]

lemma lookup_setColumn_self (l : List (String × ℚ)) (name : String) (v : ℚ) :
    List.lookup name (setColumn l name v)
      = if name ∈ l.map Prod.fst then some v else none := by
  induction l with
  | nil => simp [setColumn]
  | cons p t ih =>
    have hsc : setColumn (p :: t) name v
        = (if p.1 = name then (p.1, v) else p) :: setColumn t name v := rfl
    rw [hsc]
    by_cases hp : p.1 = name
    · rw [if_pos hp, lookup_cons]
      simp [hp]
    · rw [if_neg hp, lookup_cons, if_neg (Ne.symm hp), ih]
      by_cases hmem : name ∈ List.map Prod.fst t
      · rw [if_pos hmem, if_pos (by simp [hmem])]
      · rw [if_neg hmem, if_neg (by simp [Ne.symm hp, hmem])]

lemma lookup_setColumn_ne {m name : String} (hm : m ≠ name) (l : List (String × ℚ)) (v : ℚ) :
    List.lookup m (setColumn l name v) = List.lookup m l := by
  induction l with
  | nil => rfl
  | cons p t ih =>
    have hsc : setColumn (p :: t) name v
        = (if p.1 = name then (p.1, v) else p) :: setColumn t name v := rfl
    rw [hsc]
    by_cases hp : p.1 = name
    · have h2 : ¬(m = p.1) := fun h => hm (h.trans hp)
      rw [if_pos hp, lookup_cons, lookup_cons, if_neg h2, if_neg h2, ih]
    · rw [if_neg hp, lookup_cons, lookup_cons]
      by_cases hmp : m = p.1
      · rw [if_pos hmp, if_pos hmp]
      · rw [if_neg hmp, if_neg hmp, ih]

lemma map_fst_init (names : List String) :
    ((names.map (fun k => (k, (0:ℚ)))).map Prod.fst) = names := by
  rw [List.map_map]
  rw [show (Prod.fst ∘ fun k : String => (k, (0:ℚ))) = id from rfl, List.map_id]

lemma lookup_init (names : List String) (n : String) (hn : n ∈ names) :
    List.lookup n (names.map (fun k => (k, (0:ℚ)))) = some 0 := by
  induction names with
  | nil => simp at hn
  | cons m t ih =>
    rw [List.map_cons, lookup_cons]
    by_cases h : n = m
    · rw [if_pos h]
    · rw [if_neg h]
      exact ih (by rcases List.mem_cons.mp hn with h2 | h2; exact absurd h2 h; exact h2)

lemma foldl_align_keys (names : List String) :
    ∀ (fv acc : List (String × ℚ)), acc.map Prod.fst = names →
    ((fv.foldl (fun aligned p =>
        if p.1 ∈ names then setColumn aligned p.1 p.2 else aligned) acc).map Prod.fst) = names := by
  intro fv
  induction fv with
  | nil => intro acc h; simpa using h
  | cons p t ih =>
    intro acc h
    simp only [List.foldl_cons]
    by_cases hp : p.1 ∈ names
    · rw [if_pos hp]
      exact ih _ (by rw [map_fst_setColumn]; exact h)
    · rw [if_neg hp]
      exact ih _ h

lemma foldl_align_lookup (names : List String) :
    ∀ (fv acc : List (String × ℚ)) (n : String),
      (fv.map Prod.fst).Nodup → acc.map Prod.fst = names → n ∈ names →
      List.lookup n (fv.foldl (fun aligned p =>
          if p.1 ∈ names then setColumn aligned p.1 p.2 else aligned) acc)
        = ((List.lookup n fv).or (List.lookup n acc)) := by
  intro fv
  induction fv with
  | nil => intro acc n _ _ _; rfl
  | cons p t ih =>
    intro acc n hnd hacc hn
    simp only [List.foldl_cons]
    rw [List.map_cons] at hnd
    have hnd2 : (p.1 ∉ t.map Prod.fst) ∧ (t.map Prod.fst).Nodup := List.nodup_cons.mp hnd
    rw [lookup_cons]
    by_cases hp : p.1 ∈ names
    · rw [if_pos hp, ih _ n hnd2.2 (by rw [map_fst_setColumn]; exact hacc) hn]
      by_cases hnp : n = p.1
      · subst hnp
        have ht : List.lookup p.1 t = none := lookup_eq_none_of_not_mem hnd2.1
        rw [ht, lookup_setColumn_self, hacc, if_pos hn, if_pos rfl]
        rfl
      · rw [lookup_setColumn_ne hnp, if_neg hnp]
    · rw [if_neg hp, ih _ n hnd2.2 hacc hn]
      have hnp : n ≠ p.1 := fun h => hp (h ▸ hn)
      rw [if_neg hnp]

lemma foldl_align_skip (names : List String) :
    ∀ (fv acc : List (String × ℚ)), (∀ q ∈ fv, q.1 ∉ names) →
      fv.foldl (fun aligned p =>
        if p.1 ∈ names then setColumn aligned p.1 p.2 else aligned) acc = acc := by
  intro fv
  induction fv with
  | nil => intro acc _; rfl
  | cons p t ih =>
    intro acc h
    simp only [List.foldl_cons]
    rw [if_neg (h p (by simp))]
    exact ih _ (fun q hq => h q (by simp [hq]))

lemma align_keys (feature_df : List (String × ℚ)) (names : List String) :
    (align_features_with_model feature_df names).map Prod.fst = names := by
  unfold align_features_with_model
  exact foldl_align_keys names feature_df _ (map_fst_init names)

lemma align_lookup (feature_df : List (String × ℚ)) (names : List String) (n : String)
    (hdf : (feature_df.map Prod.fst).Nodup) (hn : n ∈ names) :
    List.lookup n (align_features_with_model feature_df names)
      = some ((List.lookup n feature_df).getD 0) := by
  unfold align_features_with_model
  rw [foldl_align_lookup names feature_df _ n hdf (map_fst_init names) hn,
    lookup_init names n hn]
  cases h : List.lookup n feature_df <;> rfl

lemma eq_of_keys_lookup :
    ∀ (l1 l2 : List (String × ℚ)), l1.map Prod.fst = l2.map Prod.fst →
      (l1.map Prod.fst).Nodup →
      (∀ n ∈ l1.map Prod.fst, List.lookup n l1 = List.lookup n l2) → l1 = l2 := by
  intro l1
  induction l1 with
  | nil =>
    intro l2 hk _ _
    rw [List.map_eq_nil_iff.mp hk.symm]
  | cons p t ih =>
    intro l2 hk hnd hl
    cases l2 with
    | nil => simp at hk
    | cons q t2 =>
      simp only [List.map_cons, List.cons.injEq] at hk
      obtain ⟨hk1, hk2⟩ := hk
      rw [List.map_cons] at hnd
      have hnd2 := List.nodup_cons.mp hnd
      have h1 := hl p.1 (by simp)
      rw [lookup_cons, lookup_cons, if_pos rfl, if_pos hk1] at h1
      have hv : p.2 = q.2 := by simpa using h1
      have ht : t = t2 := by
        apply ih t2 hk2 hnd2.2
        intro n hn
        have hne : n ≠ p.1 := fun h => hnd2.1 (h ▸ hn)
        have h2 := hl n (by simp [hn])
        rwa [lookup_cons, lookup_cons, if_neg hne, if_neg (by rw [← hk1]; exact hne)] at h2
      rcases p with ⟨p1, p2⟩
      rcases q with ⟨q1, q2⟩
      simp only at hk1 hv
      rw [ht, hk1, hv]

lemma align_self (l : List (String × ℚ)) (names : List String) (hnames : names.Nodup)
    (hkeys : l.map Prod.fst = names) : align_features_with_model l names = l := by
  apply eq_of_keys_lookup
  · rw [align_keys, hkeys]
  · rw [align_keys]
    exact hnames
  · intro n hn
    rw [align_keys] at hn
    rw [align_lookup l names n (hkeys.symm ▸ hnames) hn]
    obtain ⟨w, hw⟩ := lookup_some_of_mem (l := l) (n := n) (by rw [hkeys]; exact hn)
    rw [hw]
    rfl

/-- C5: alignment is total and never fails; it returns exactly the model's
columns in the model's order, taking the input value for each name present
and 0 for each name absent, dropping input columns the model does not
declare; aligning an already-aligned frame against the same schema returns
it unchanged, and aligning a frame sharing no column with the schema yields
the all-zero frame of the schema's shape. -/
theorem align_contract (feature_df : List (String × ℚ)) (model_feature_names : List String)
    (hnames : model_feature_names.Nodup) (hdf : (feature_df.map Prod.fst).Nodup) :
    (align_features_with_model feature_df model_feature_names).map Prod.fst = model_feature_names
    ∧ (∀ n ∈ model_feature_names,
        (align_features_with_model feature_df model_feature_names).lookup n
          = some ((feature_df.lookup n).getD 0))
    ∧ align_features_with_model (align_features_with_model feature_df model_feature_names)
        model_feature_names = align_features_with_model feature_df model_feature_names
    ∧ ((∀ n ∈ feature_df.map Prod.fst, n ∉ model_feature_names) →
        align_features_with_model feature_df model_feature_names
          = model_feature_names.map (fun k => (k, (0:ℚ)))) := by
  refine ⟨align_keys _ _, fun n hn => align_lookup _ _ n hdf hn, ?_, ?_⟩
  · exact align_self _ _ hnames (align_keys _ _)
  · intro h
    unfold align_features_with_model
    exact foldl_align_skip _ feature_df _
      (fun q hq => h q.1 (List.mem_map_of_mem _ hq))

/-- Witness for C5: aligning a two-column frame to the schema [a, b] keeps
exactly the schema's columns. -/
theorem align_contract_witness :
    (align_features_with_model [("b", (5:ℚ)), ("c", 7)] ["a", "b"]).map Prod.fst = ["a", "b"] :=
  (align_contract [("b", (5:ℚ)), ("c", 7)] ["a", "b"] (by decide) (by decide)).1

/-! ### Lemmas about attribution -/

lemma mem_insertByAbs (p a : String × ℚ) (l : List (String × ℚ)) :
    a ∈ insertByAbs p l ↔ a = p ∨ a ∈ l := by
  induction l with
  | nil => simp [insertByAbs]
  | cons q t ih =>
    have hdef : insertByAbs p (q :: t)
        = if |p.2| < |q.2| then q :: insertByAbs p t else p :: q :: t := rfl
    rw [hdef]
    by_cases hc : |p.2| < |q.2|
    · rw [if_pos hc]
      simp only [List.mem_cons, ih]
      tauto
    · rw [if_neg hc]
      simp only [List.mem_cons]

lemma pairwise_insertByAbs (p : String × ℚ) {l : List (String × ℚ)}
    (hl : l.Pairwise (fun a b => |b.2| ≤ |a.2|)) :
    (insertByAbs p l).Pairwise (fun a b => |b.2| ≤ |a.2|) := by
  induction l with
  | nil => simp [insertByAbs]
  | cons q t ih =>
    rw [List.pairwise_cons] at hl
    obtain ⟨hq, ht⟩ := hl
    have hdef : insertByAbs p (q :: t)
        = if |p.2| < |q.2| then q :: insertByAbs p t else p :: q :: t := rfl
    rw [hdef]
    by_cases hc : |p.2| < |q.2|
    · rw [if_pos hc, List.pairwise_cons]
      refine ⟨?_, ih ht⟩
      intro a ha
      rcases (mem_insertByAbs p a t).mp ha with rfl | ha2
      · exact le_of_lt hc
      · exact hq a ha2
    · rw [if_neg hc, List.pairwise_cons]
      push_neg at hc
      refine ⟨?_, List.pairwise_cons.mpr ⟨hq, ht⟩⟩
      intro a ha
      rcases List.mem_cons.mp ha with rfl | ha2
      · exact hc
      · exact le_trans (hq a ha2) hc

lemma pairwise_sortByAbsDesc (l : List (String × ℚ)) :
    (sortByAbsDesc l).Pairwise (fun a b => |b.2| ≤ |a.2|) := by
  induction l with
  | nil => simp [sortByAbsDesc]
  | cons p t ih => exact pairwise_insertByAbs p ih

lemma formatContribs_length (feature_names : List String) (rc : List ℚ) :
    (formatContribs feature_names rc).length ≤ 5 := by
  unfold formatContribs
  calc (((sortByAbsDesc (feature_names.zip rc)).take 5).filter
        (fun p => decide ((1:ℚ)/1000 < |p.2|))).length
      ≤ ((sortByAbsDesc (feature_names.zip rc)).take 5).length :=
        List.length_filter_le _ _
    _ ≤ 5 := by rw [List.length_take]; exact min_le_left _ _

lemma formatContribs_pairwise (feature_names : List String) (rc : List ℚ) :
    (formatContribs feature_names rc).Pairwise (fun a b => |b.2| ≤ |a.2|) :=
  ((pairwise_sortByAbsDesc _).sublist (List.take_sublist _ _)).sublist
    (List.filter_sublist _)

lemma formatContribs_eps (feature_names : List String) (rc : List ℚ) :
    ∀ q ∈ formatContribs feature_names rc, (1:ℚ)/1000 < |q.2| := by
  intro q hq
  unfold formatContribs at hq
  have h := List.of_mem_filter hq
  simpa using h

lemma set_indexOf_map (g : String → ℚ) (s : String) (v : ℚ) :
    ∀ (names : List String), names.Nodup → s ∈ names →
      (names.map g).set (names.indexOf s) v
        = names.map (fun n => if n = s then v else g n) := by
  intro names
  induction names with
  | nil => simp
  | cons m t ih =>
    intro hN hs
    by_cases h : s = m
    · subst h
      rw [List.map_cons, List.indexOf_cons_self, List.set_cons_zero, List.map_cons,
        if_pos rfl]
      have hm := (List.nodup_cons.mp hN).1
      have ht : t.map (fun n => if n = s then v else g n) = t.map g :=
        List.map_congr_left (fun n hn => if_neg (fun (he : n = s) => hm (he ▸ hn)))
      rw [ht]
    · have hs2 : s ∈ t := by
        rcases List.mem_cons.mp hs with h2 | h2
        · exact absurd h2 h
        · exact h2
      rw [List.map_cons, List.indexOf_cons_ne _ (Ne.symm h), List.set_cons_succ,
        ih (List.nodup_cons.mp hN).2 hs2, List.map_cons, if_neg (Ne.symm h)]

lemma condSet_indexOf_map (g : String → ℚ) (s : String) (v : ℚ) (names : List String)
    (hN : names.Nodup) :
    (if s ∈ names then (names.map g).set (names.indexOf s) v else names.map g)
      = names.map (fun n => if n = s then v else g n) := by
  by_cases hs : s ∈ names
  · rw [if_pos hs]
    exact set_indexOf_map g s v names hN hs
  · rw [if_neg hs]
    exact List.map_congr_left (fun n hn => (if_neg (fun (he : n = s) => hs (he ▸ hn))).symm)

lemma fallbackContribs_eq (input_df : List (String × ℚ))
    (hN : (input_df.map Prod.fst).Nodup) :
    fallbackContribs input_df = (input_df.map Prod.fst).map
      (fallbackValue ((input_df.lookup "debt_to_income_ratio").getD 0)
        ((input_df.lookup "loan_to_income_ratio").getD 0)
        ((input_df.lookup "monthly_income").getD 0)) := by
  unfold fallbackContribs
  dsimp only
  rw [← List.map_const (input_df.map Prod.fst) (0:ℚ)]
  rw [condSet_indexOf_map _ _ _ _ hN, condSet_indexOf_map _ _ _ _ hN,
    condSet_indexOf_map _ _ _ _ hN]
  apply List.map_congr_left
  intro n hn
  by_cases h1 : n = "debt_to_income_ratio"
  · subst h1
    simp [fallbackValue]
  · by_cases h2 : n = "loan_to_income_ratio"
    · subst h2
      simp [fallbackValue]
    · by_cases h3 : n = "monthly_income"
      · subst h3
        simp [fallbackValue]
      · simp [fallbackValue, h1, h2, h3]

/-- C6: attribution is a total function (never propagates an exception); its
result has at most 5 entries, is sorted by descending absolute impact, and
every entry's absolute impact exceeds 0.001; when the primary SHAP method is
unavailable or fails it uses the deterministic heuristic (impact
(dti − 40)·0.015 for debt_to_income_ratio, (lti − 30)·0.01 for
loan_to_income_ratio, (50000 − income)·0.00001 for monthly_income, 0 for all
other features), and when the fallback also fails it returns the empty
list. -/
theorem shap_explanation_contract (shapResult : Option (List ℚ)) (fallbackOk : Bool)
    (input_df : List (String × ℚ)) (hN : (input_df.map Prod.fst).Nodup) :
    (get_shap_explanation shapResult fallbackOk input_df).length ≤ 5
    ∧ (get_shap_explanation shapResult fallbackOk input_df).Pairwise
        (fun a b => |b.2| ≤ |a.2|)
    ∧ (∀ q ∈ get_shap_explanation shapResult fallbackOk input_df, (1:ℚ)/1000 < |q.2|)
    ∧ (shapResult = none → fallbackOk = true →
        get_shap_explanation shapResult fallbackOk input_df
          = formatContribs (input_df.map Prod.fst) ((input_df.map Prod.fst).map
              (fallbackValue ((input_df.lookup "debt_to_income_ratio").getD 0)
                ((input_df.lookup "loan_to_income_ratio").getD 0)
                ((input_df.lookup "monthly_income").getD 0))))
    ∧ (shapResult = none → fallbackOk = false →
        get_shap_explanation shapResult fallbackOk input_df = []) := by
  have hsplit : get_shap_explanation shapResult fallbackOk input_df = []
      ∨ ∃ rc, get_shap_explanation shapResult fallbackOk input_df
          = formatContribs (input_df.map Prod.fst) rc := by
    unfold get_shap_explanation
    cases shapResult with
    | some rc => exact Or.inr ⟨rc, rfl⟩
    | none =>
      cases fallbackOk with
      | true => exact Or.inr ⟨fallbackContribs input_df, rfl⟩
      | false => exact Or.inl rfl
  refine ⟨?_, ?_, ?_, ?_, ?_⟩
  · rcases hsplit with h | ⟨rc, h⟩ <;> rw [h]
    · simp
    · exact formatContribs_length _ _
  · rcases hsplit with h | ⟨rc, h⟩ <;> rw [h]
    · exact List.Pairwise.nil
    · exact formatContribs_pairwise _ _
  · rcases hsplit with h | ⟨rc, h⟩ <;> rw [h]
    · intro q hq
      simp at hq
    · exact formatContribs_eps _ _
  · intro h1 h2
    subst h1
    subst h2
    show formatContribs (input_df.map Prod.fst) (fallbackContribs input_df) = _
    rw [fallbackContribs_eq input_df hN]
  · intro h1 h2
    subst h1
    subst h2
    rfl

/-- Witness for C6: a concrete fallback run returns at most 5 entries. -/
theorem shap_explanation_contract_witness :
    (get_shap_explanation none true
        [("debt_to_income_ratio", (60:ℚ)), ("monthly_income", 20000)]).length ≤ 5 :=
  (shap_explanation_contract none true
    [("debt_to_income_ratio", (60:ℚ)), ("monthly_income", 20000)] (by decide)).1

/-! ### Claims about batch scoring (C8) -/

lemma foldl_append_eq_map {α β : Type} (f : α → β) :
    ∀ (l : List α) (acc : List β), l.foldl (fun rs a => rs ++ [f a]) acc = acc ++ l.map f := by
  intro l
  induction l with
  | nil => intro acc; simp
  | cons a t ih =>
    intro acc
    simp only [List.foldl_cons, List.map_cons]
    rw [ih]
    simp

/-- C8: batch_predict maps the single-request pipeline over the input
sequence index-to-index, so the output has the same length, a failing item
yields an error record in place and does not abort the rest; concretely, one
bad customer id among three applications yields exactly one error record and
two well-formed results. -/
theorem batch_predict_contract (db : Database) (today : ℤ)
    (model : List (String × ℚ) → ℚ) (feature_names : List String)
    (shapResult : Option (List ℚ)) (fallbackOk : Bool) (applications : List BatchApp) :
    batch_predict db today model feature_names shapResult fallbackOk applications
      = applications.map (predictItem db today model feature_names shapResult fallbackOk)
    ∧ (batch_predict db today model feature_names shapResult fallbackOk applications).length
      = applications.length
    ∧ (batch_predict ⟨[⟨1, 0, "Male", "Gujarat"⟩, ⟨3, 0, "Female", "Punjab"⟩],
          [⟨1, 80000, 5, "Salaried"⟩, ⟨3, 40000, 3, "Self-Employed"⟩]⟩ 0
          (fun _ => (1/4 : ℚ)) ["monthly_income"] none true
          [⟨1, 500000, 60, 9, "Education"⟩, ⟨99, 500000, 60, 9, "Education"⟩,
           ⟨3, 500000, 60, 9, "Education"⟩]).map (fun it => it.isErrRec)
      = [false, true, false]
    ∧ (batch_predict ⟨[⟨1, 0, "Male", "Gujarat"⟩, ⟨3, 0, "Female", "Punjab"⟩],
          [⟨1, 80000, 5, "Salaried"⟩, ⟨3, 40000, 3, "Self-Employed"⟩]⟩ 0
          (fun _ => (1/4 : ℚ)) ["monthly_income"] none true
          [⟨1, 500000, 60, 9, "Education"⟩, ⟨99, 500000, 60, 9, "Education"⟩,
           ⟨3, 500000, 60, 9, "Education"⟩]).countP (fun it => it.isErrRec) = 1
    ∧ (batch_predict ⟨[⟨1, 0, "Male", "Gujarat"⟩, ⟨3, 0, "Female", "Punjab"⟩],
          [⟨1, 80000, 5, "Salaried"⟩, ⟨3, 40000, 3, "Self-Employed"⟩]⟩ 0
          (fun _ => (1/4 : ℚ)) ["monthly_income"] none true
          [⟨1, 500000, 60, 9, "Education"⟩, ⟨99, 500000, 60, 9, "Education"⟩,
           ⟨3, 500000, 60, 9, "Education"⟩]).countP (fun it => !it.isErrRec) = 2 := by
  have hmap : batch_predict db today model feature_names shapResult fallbackOk applications
      = applications.map (predictItem db today model feature_names shapResult fallbackOk) := by
    unfold batch_predict
    have h := foldl_append_eq_map
      (predictItem db today model feature_names shapResult fallbackOk) applications []
    simpa using h
  refine ⟨hmap, by rw [hmap, List.length_map], rfl, rfl, rfl⟩
